import Mathlib

/-!
Shallow embedding of the documentation build configuration in
`src/conf.py` (a Sphinx `conf.py` read once per build), together with
models of the pieces of behavior the surrounding tool applies to it
(link-template expansion, inventory resolution, glob matching, URL
syntax), and proofs of the specification's claims about it.
-/

namespace McpDocs

/-- The single data entity of the configuration file: every
configuration variable assigned in `src/conf.py`, with the field names
of the data model.  `extLinks` maps a tag to the pair
(URL template, label template); `intersphinxMapping` maps a project
name to (base URL, optional local inventory path). -/
structure BuildConfig where
  project : String
  copyright : String
  author : String
  extensions : List String
  templatesPath : List String
  excludePatterns : List String
  theme : String
  staticPath : List String
  useDirectoryRtdTheme : Bool
  extraPaths : List String
  masterDoc : String
  copySource : Bool
  baseUrl : String
  cssFiles : List String
  extLinks : List (String × String × String)
  intersphinxMapping : List (String × String × Option String)
  deriving Repr, DecidableEq

/-- The configuration values assigned in `src/conf.py`, field for
field, each one the literal written in the file. -/
def conf : BuildConfig where
  project := "Model Context Protocol (MCP) Python SDK"
  copyright := "2023, Model Context Protocol"
  author := "Model Context Protocol"
  extensions := ["sphinx.ext.autodoc", "sphinx.ext.viewcode", "sphinx.ext.napoleon"]
  templatesPath := ["_templates"]
  excludePatterns := ["_build", "Thumbs.db", ".DS_Store"]
  theme := "sphinx_rtd_theme"
  staticPath := ["_static"]
  useDirectoryRtdTheme := true
  extraPaths := [".nojekyll"]
  masterDoc := "index"
  copySource := false
  baseUrl := "/mcp_docs/"
  cssFiles := ["custom.css"]
  extLinks :=
    [ ("github", "https://github.com/modelcontextprotocol/python-sdk/blob/main/%s", "%s"),
      ("spec", "https://modelcontextprotocol.io/%s", "%s") ]
  intersphinxMapping :=
    [ ("python", "https://docs.python.org/3", none),
      ("starlette", "https://www.starlette.io/", none) ]

/-- Errors the spec attributes to configuration load (all raised by
the surrounding tool; none occur for this file, whose load is a plain
read of literals). -/
inductive LoadError where
  | parseError : LoadError
  | pathNotFoundError : LoadError
  | unknownCapabilityError : LoadError
  | linkTemplateError : LoadError
  deriving Repr, DecidableEq

/-- The load operation: one read per build invocation.  `src/conf.py`
consists only of literal assignments, so every invocation returns the
same fully populated record. -/
def loadConfig : Unit → Except LoadError BuildConfig :=
  fun _ => Except.ok conf

/-- Number of substitution placeholders (occurrences of the two-character
sequence `%s`) in a character list, scanning left to right. -/
def countPS : List Char → Nat
  | [] => 0
  | [_] => 0
  | c :: d :: rest =>
      if c = '%' ∧ d = 's' then countPS rest + 1 else countPS (d :: rest)

/-- Number of substitution placeholders in a string. -/
def countPlaceholders (s : String) : Nat :=
  countPS s.data

/-- Modelled from the spec: link-template expansion ("used by the
external tool to expand shorthand cross-references into hyperlinks"):
each `%s` placeholder in the template is replaced by the argument,
scanning left to right. The expansion itself is performed by the
surrounding documentation tool and is not part of `src/conf.py`. -/
def substPS (arg : String) : List Char → List Char
  | [] => []
  | [c] => [c]
  | c :: d :: rest =>
      if c = '%' ∧ d = 's' then arg.data ++ substPS arg rest
      else c :: substPS arg (d :: rest)

/-- String-level template expansion. -/
def expandTemplate (tmpl arg : String) : String :=
  ⟨substPS arg tmpl.data⟩

/-- Modelled from the spec: resolving an `extLinks` tag with an
argument looks the tag up in the mapping and substitutes the argument
into the URL template and the label template, giving the hyperlink's
URL and display label.  Resolution is performed by the surrounding
tool, not by `src/conf.py`. -/
def resolveExtLink (m : List (String × String × String)) (tag arg : String) :
    Option (String × String) :=
  match m.find? (fun e => e.1 == tag) with
  | some (_, url, label) => some (expandTemplate url arg, expandTemplate label arg)
  | none => none

/-- Modelled from the spec: the inventory location of an
`intersphinxMapping` entry.  A `None` inventory path means "fetch
inventory from baseUrl automatically", at the base URL followed by
`/objects.inv`; a present path is used as given.  The fetch is done by
the surrounding tool, not by `src/conf.py`. -/
def inventoryUrl (base : String) (inv : Option String) : String :=
  match inv with
  | none => base ++ "/objects.inv"
  | some p => p

/-- Modelled from the spec: glob matching of an exclude pattern against
a path ("set of glob patterns: files/directories ignored during
build").  `*` matches any run of characters other than the path
separator, `?` matches any single character other than the separator,
and every other pattern character matches itself.  Matching is done by
the surrounding tool, not by `src/conf.py`; the patterns in this
configuration contain no wildcard characters at all. -/
def globMatch : List Char → List Char → Bool
  | [], cs => cs.isEmpty
  | '*' :: ps, cs =>
      (List.range (cs.length + 1)).any fun n =>
        ((cs.take n).all fun c => c != '/') && globMatch ps (cs.drop n)
  | '?' :: ps, c :: cs => (c != '/') && globMatch ps cs
  | _ :: _, [] => false
  | p :: ps, c :: cs => (p == c) && globMatch ps cs

/-- String-level glob matching. -/
def globMatchStr (pat path : String) : Bool :=
  globMatch pat.data path.data

/-- Modelled from the spec: a syntactic URL check ("string (URL)"):
a URL string is a nonempty all-letter scheme, followed by `://`,
followed by a nonempty remainder.  Splits off the scheme at the first
occurrence of `://`. -/
def splitScheme : List Char → Option (List Char × List Char)
  | ':' :: '/' :: '/' :: rest => some ([], rest)
  | c :: rest => (splitScheme rest).map (fun pr => (c :: pr.1, pr.2))
  | [] => none

/-- Whether a string is a syntactically valid URL under the model
above. -/
def isValidUrl (s : String) : Bool :=
  match splitScheme s.data with
  | some (scheme, rest) =>
      !scheme.isEmpty && scheme.all (fun c => c.isAlpha) && !rest.isEmpty
  | none => false

/-- Modelled from the spec: the capability identifier that generates
API docs from source comments. -/
def generateApiDocsCapability : String := "sphinx.ext.autodoc"

/-- Modelled from the spec: the capability identifier that shows
source code links. -/
def showSourceLinksCapability : String := "sphinx.ext.viewcode"

/-- Modelled from the spec: the capability identifier that parses
structured docstrings. -/
def parseStructuredDocstringsCapability : String := "sphinx.ext.napoleon"

/-! ## Helper lemmas about placeholder counting and substitution -/

/-- Appending a placeholder to a character list adds one to its
placeholder count. -/
theorem countPS_append_ps (xs : List Char) :
    countPS (xs ++ ['%', 's']) = countPS xs + 1 := by
  induction xs using countPS.induct with
  | case1 => rfl
  | case2 c => simp [countPS]
  | case3 c d rest h ih => simp [countPS, h, ih]
  | case4 c d rest h ih =>
      simp only [List.cons_append, countPS, if_neg h]
      simpa using ih

/-- Substituting into a template that is a placeholder-free part
followed by one placeholder replaces exactly that placeholder. -/
theorem substPS_append_ps (arg : String) (xs : List Char) :
    countPS xs = 0 → substPS arg (xs ++ ['%', 's']) = xs ++ arg.data := by
  induction xs using countPS.induct with
  | case1 => intro h0; simp [substPS]
  | case2 c => intro h0; simp [substPS]
  | case3 c d rest h ih => intro h0; simp [countPS, h] at h0
  | case4 c d rest h ih =>
      intro h0
      simp only [countPS, if_neg h] at h0
      simp only [List.cons_append, substPS, if_neg h]
      simpa using ih h0

/-- String-level form of `substPS_append_ps`. -/
theorem expandTemplate_append_ps (p l : List Char) (h : countPS p = 0) :
    expandTemplate (⟨p⟩ ++ "%s") ⟨l⟩ = ⟨p ++ l⟩ := by
  show String.mk (substPS ⟨l⟩ (String.mk p ++ "%s").data) = _
  have h1 : (String.mk p ++ "%s").data = p ++ ['%', 's'] := String.data_append ⟨p⟩ "%s"
  rw [h1, substPS_append_ps ⟨l⟩ p h]

/-- Expanding the bare-placeholder template returns the argument. -/
theorem expandTemplate_ps (l : List Char) : expandTemplate "%s" ⟨l⟩ = ⟨l⟩ := by
  show String.mk (l ++ []) = String.mk l
  rw [List.append_nil]

/-- Resolution of one configured tag against a template made of a
placeholder-free part followed by one placeholder. -/
theorem resolveExtLink_conf (tag tmpl pre a : String)
    (hfind : ∀ x : String,
      resolveExtLink conf.extLinks tag x = some (expandTemplate tmpl x, expandTemplate "%s" x))
    (hsplit : tmpl.data = pre.data ++ ['%', 's'])
    (hzero : countPS pre.data = 0) :
    resolveExtLink conf.extLinks tag a = some (pre ++ a, a) := by
  obtain ⟨l⟩ := a
  obtain ⟨pl⟩ := pre
  rw [hfind ⟨l⟩, expandTemplate_ps]
  have c1 : expandTemplate tmpl ⟨l⟩ = String.mk (pl ++ l) := by
    show String.mk (substPS ⟨l⟩ tmpl.data) = _
    rw [hsplit, substPS_append_ps ⟨l⟩ pl hzero]
  rw [c1]
  rfl

/-! ## Claim theorems -/

/-- C1: the load operation returns a fully populated BuildConfig —
every field enumerated in the data model (project, copyright, author,
extensions, templatesPath, staticPath, extraPaths, excludePatterns,
theme, baseUrl, cssFiles, extLinks, intersphinxMapping) is assigned a
value — or fails.  The record literal on the right assigns every field
an independent literal, so no field is computed from another; the
record is immutable after load, there being no mutation operation on
`BuildConfig`. -/
theorem load_yields_fully_populated_config :
    loadConfig () = Except.ok conf ∧
    conf = { project := "Model Context Protocol (MCP) Python SDK"
             copyright := "2023, Model Context Protocol"
             author := "Model Context Protocol"
             extensions := ["sphinx.ext.autodoc", "sphinx.ext.viewcode", "sphinx.ext.napoleon"]
             templatesPath := ["_templates"]
             excludePatterns := ["_build", "Thumbs.db", ".DS_Store"]
             theme := "sphinx_rtd_theme"
             staticPath := ["_static"]
             useDirectoryRtdTheme := true
             extraPaths := [".nojekyll"]
             masterDoc := "index"
             copySource := false
             baseUrl := "/mcp_docs/"
             cssFiles := ["custom.css"]
             extLinks :=
               [ ("github", "https://github.com/modelcontextprotocol/python-sdk/blob/main/%s", "%s"),
                 ("spec", "https://modelcontextprotocol.io/%s", "%s") ]
             intersphinxMapping :=
               [ ("python", "https://docs.python.org/3", none),
                 ("starlette", "https://www.starlette.io/", none) ] } :=
  ⟨rfl, rfl⟩

/-- C2: for every entry in the `extLinks` mapping of the loaded
configuration, the URL template and the label template each contain
exactly one substitution placeholder `%s`. -/
theorem extLinks_templates_single_placeholder :
    ∀ e ∈ conf.extLinks,
      countPlaceholders e.2.1 = 1 ∧ countPlaceholders e.2.2 = 1 := by
  intro e he
  fin_cases he <;> exact ⟨by decide, by decide⟩

/-- Witness for C2 at the `github` entry. -/
theorem extLinks_templates_single_placeholder_witness :
    countPlaceholders "https://github.com/modelcontextprotocol/python-sdk/blob/main/%s" = 1 ∧
    countPlaceholders "%s" = 1 :=
  extLinks_templates_single_placeholder
    ("github", "https://github.com/modelcontextprotocol/python-sdk/blob/main/%s", "%s")
    (by decide)

/-- C3: resolving an `extLinks` tag substitutes the argument for the
single placeholder in each template.  First conjunct: the spec's
scenario mapping, tag `github`, argument `README.md`.  Second
conjunct: for every tag of the loaded configuration whose templates
are `pre ++ "%s"` and `"%s"`, resolving with argument `a` yields URL
`pre ++ a` and label `a`. -/
theorem extLinks_resolution_substitutes_argument :
    resolveExtLink [("github", "https://github.com/org/repo/blob/main/%s", "%s")]
        "github" "README.md" =
      some ("https://github.com/org/repo/blob/main/README.md", "README.md") ∧
    ∀ tag url label, (tag, url, label) ∈ conf.extLinks →
      ∀ pre a : String, url = pre ++ "%s" → label = "%s" →
        resolveExtLink conf.extLinks tag a = some (pre ++ a, a) := by
  refine ⟨by decide, ?_⟩
  intro tag url label hmem pre a hurl hlabel
  simp only [conf, List.mem_cons, List.not_mem_nil, or_false, Prod.mk.injEq] at hmem
  rcases hmem with ⟨h1, h2, h3⟩ | ⟨h1, h2, h3⟩ <;> subst h1 <;> subst h2 <;> subst h3
  · have hd := congrArg String.data hurl
    rw [String.data_append] at hd
    have hd2 : pre.data ++ ['%', 's'] =
        "https://github.com/modelcontextprotocol/python-sdk/blob/main/".data ++ ['%', 's'] :=
      hd.symm
    have hpre : pre = "https://github.com/modelcontextprotocol/python-sdk/blob/main/" :=
      String.ext (List.append_cancel_right hd2)
    subst hpre
    exact resolveExtLink_conf "github"
      "https://github.com/modelcontextprotocol/python-sdk/blob/main/%s"
      "https://github.com/modelcontextprotocol/python-sdk/blob/main/" a
      (fun x => rfl) rfl (by decide)
  · have hd := congrArg String.data hurl
    rw [String.data_append] at hd
    have hd2 : pre.data ++ ['%', 's'] = "https://modelcontextprotocol.io/".data ++ ['%', 's'] :=
      hd.symm
    have hpre : pre = "https://modelcontextprotocol.io/" :=
      String.ext (List.append_cancel_right hd2)
    subst hpre
    exact resolveExtLink_conf "spec" "https://modelcontextprotocol.io/%s"
      "https://modelcontextprotocol.io/" a (fun x => rfl) rfl (by decide)

/-- Witness for C3 at the `github` entry of the loaded configuration,
argument `README.md`. -/
theorem extLinks_resolution_substitutes_argument_witness :
    resolveExtLink conf.extLinks "github" "README.md" =
      some ("https://github.com/modelcontextprotocol/python-sdk/blob/main/README.md",
            "README.md") :=
  extLinks_resolution_substitutes_argument.2 "github"
    "https://github.com/modelcontextprotocol/python-sdk/blob/main/%s" "%s" (by decide)
    "https://github.com/modelcontextprotocol/python-sdk/blob/main/" "README.md" rfl rfl

/-- C4: for every `intersphinxMapping` entry whose inventory path is
`none`, the inventory is fetched from the entry's base URL followed by
`/objects.inv`; in particular the `python` entry's inventory URL is
`https://docs.python.org/3/objects.inv`. -/
theorem intersphinx_inventory_fetched_from_base :
    inventoryUrl "https://docs.python.org/3" none = "https://docs.python.org/3/objects.inv" ∧
    ∀ e ∈ conf.intersphinxMapping, e.2.2 = none →
      inventoryUrl e.2.1 e.2.2 = e.2.1 ++ "/objects.inv" := by
  refine ⟨by decide, ?_⟩
  intro e he hnone
  rw [hnone]
  rfl

/-- Witness for C4 at the `python` entry. -/
theorem intersphinx_inventory_fetched_from_base_witness :
    inventoryUrl "https://docs.python.org/3" none = "https://docs.python.org/3" ++ "/objects.inv" :=
  intersphinx_inventory_fetched_from_base.2 ("python", "https://docs.python.org/3", none)
    (by decide) rfl

/-- C5: the extensions field is an ordered sequence of exactly three
capability identifiers, in order: generate API docs from source
comments, show source code links, parse structured docstrings. -/
theorem extensions_three_capabilities_in_order :
    conf.extensions =
      [generateApiDocsCapability, showSourceLinksCapability,
       parseStructuredDocstringsCapability] ∧
    conf.extensions.length = 3 :=
  ⟨rfl, rfl⟩

/-- C6: no glob pattern of `excludePatterns` matches any path listed
in `templatesPath` or `staticPath`, nor any file under such a path
(the configuration never self-excludes its template or static
assets). -/
theorem excludePatterns_never_match_assets :
    ∀ p ∈ conf.excludePatterns, ∀ q ∈ conf.templatesPath ++ conf.staticPath,
      globMatchStr p q = false ∧
      ∀ r : String, globMatchStr p (q ++ "/" ++ r) = false := by
  intro p hp q hq
  fin_cases hp <;> fin_cases hq <;>
    exact ⟨by decide, fun r => by obtain ⟨rl⟩ := r; rfl⟩

/-- Witness for C6: pattern `_build` against `_templates` and a file
under it. -/
theorem excludePatterns_never_match_assets_witness :
    globMatchStr "_build" "_templates" = false ∧
    globMatchStr "_build" ("_templates" ++ "/" ++ "layout.html") = false :=
  ⟨(excludePatterns_never_match_assets "_build" (by decide) "_templates" (by decide)).1,
   (excludePatterns_never_match_assets "_build" (by decide) "_templates" (by decide)).2
     "layout.html"⟩

/-- C7: the loaded configuration specifies the deployment base URL
root path, and its extra paths include the `.nojekyll` marker file
that suppresses the host's default hidden-file exclusion rules. -/
theorem deployment_baseurl_and_marker_file :
    conf.baseUrl = "/mcp_docs/" ∧ conf.baseUrl ≠ "" ∧ ".nojekyll" ∈ conf.extraPaths :=
  ⟨rfl, by decide, by decide⟩

/-- C8: every base URL in the `intersphinxMapping` of the loaded
configuration is a syntactically valid URL string. -/
theorem intersphinx_baseurls_syntactically_valid :
    ∀ e ∈ conf.intersphinxMapping, isValidUrl e.2.1 = true := by
  intro e he
  fin_cases he <;> decide

/-- Witness for C8 at the `python` entry. -/
theorem intersphinx_baseurls_syntactically_valid_witness :
    isValidUrl "https://docs.python.org/3" = true :=
  intersphinx_baseurls_syntactically_valid ("python", "https://docs.python.org/3", none)
    (by decide)

/-- C9: loading the configuration twice yields structurally identical
BuildConfig values — every invocation of the load operation returns
the same record, so any two results are equal field for field. -/
theorem load_idempotent_pure :
    ∀ u v : Unit, loadConfig u = loadConfig v ∧ loadConfig u = Except.ok conf :=
  fun _ _ => ⟨rfl, rfl⟩

/-- C10: every label template in `extLinks` is the bare placeholder
`%s`, so resolved display labels equal the argument: label resolution
is the identity on the argument for every configured tag. -/
theorem extLinks_label_resolution_identity :
    ∀ e ∈ conf.extLinks, e.2.2 = "%s" ∧ ∀ a : String, expandTemplate e.2.2 a = a := by
  intro e he
  fin_cases he <;>
    exact ⟨rfl, fun a => by obtain ⟨l⟩ := a; exact expandTemplate_ps l⟩

/-- Witness for C10 at the `github` entry, argument `hello`. -/
theorem extLinks_label_resolution_identity_witness :
    expandTemplate "%s" "hello" = "hello" :=
  (extLinks_label_resolution_identity
    ("github", "https://github.com/modelcontextprotocol/python-sdk/blob/main/%s", "%s")
    (by decide)).2 "hello"

end McpDocs
